import Mathlib

/-!
Verification of the path-resolution and format-dispatch core of the
`gc_data_storage` repository (class `GCPDataStorage` in
`gc_data_storage/gc_data_storage.py`).

The Python source is shallowly embedded below.  Pure string manipulation
(`str.startswith`, `str.replace`, `str.strip('/')`, `Path(...).name`,
`Path(...).suffix`, `str.lower`) is translated to executable Lean functions
over `List Char`.  Stateful behaviour (subprocess invocations via
`subprocess.run`, temporary-file creation and deletion, local file
creation/deletion, pandas serialization calls, image display) is modelled by
explicit state passing over a `World` record that accumulates an event trace,
with the external `gcloud` CLI abstracted as a `Runner` function from a
command line to its (return code, stdout) pair.  Python exceptions are
modelled by the `PyResult` sum type.
-/

/-- Python `s.startswith(pre)`: `pre` is a prefix of `s`. -/
def pyStartsWith (s pre : String) : Bool :=
  pre.toList.isPrefixOf s.toList

/-- Python `s.endswith(suf)`: `suf` is a suffix of `s`. -/
def pyEndsWith (s suf : String) : Bool :=
  suf.toList.isSuffixOf s.toList

/-- Split a character list at every occurrence of `c`, keeping empty groups,
like Python `s.split(c)`. -/
def splitCharL (c : Char) : List Char → List (List Char)
  | [] => [[]]
  | x :: xs =>
    match splitCharL c xs with
    | [] => [[]]
    | g :: gs => if x = c then [] :: g :: gs else (x :: g) :: gs

/-- Python `s.split(c)` for a single-character separator. -/
def pySplitChar (s : String) (c : Char) : List String :=
  (splitCharL c s.toList).map (fun l => ⟨l⟩)

/-- Python `s.strip('/')`: remove leading and trailing `'/'` characters. -/
def stripSlashes (s : String) : String :=
  ⟨((s.toList.dropWhile (fun c => c = '/')).reverse.dropWhile
      (fun c => c = '/')).reverse⟩

/-- Python `s.strip()`: remove leading and trailing whitespace. -/
def pyStrip (s : String) : String :=
  ⟨((s.toList.dropWhile Char.isWhitespace).reverse.dropWhile
      Char.isWhitespace).reverse⟩

/-- Python `s.lower()` (ASCII letters, which covers every extension the
source compares against). -/
def pyLower (s : String) : String :=
  ⟨s.toList.map Char.toLower⟩

/-- One rewrite pass with explicit fuel: replace every non-overlapping
occurrence of `pat` by `rep`, left to right, like Python `s.replace`. -/
def pyReplaceFuel (pat rep : List Char) : Nat → List Char → List Char
  | 0, l => l
  | _ + 1, [] => []
  | n + 1, x :: xs =>
    if pat.isPrefixOf (x :: xs) then
      rep ++ pyReplaceFuel pat rep n ((x :: xs).drop pat.length)
    else
      x :: pyReplaceFuel pat rep n xs

/-- Python `s.replace(pat, rep)` for a non-empty pattern (the source only
ever replaces the pattern `"gs://"`). -/
def pyReplace (s pat rep : String) : String :=
  if pat.toList.isEmpty then s
  else ⟨pyReplaceFuel pat.toList rep.toList s.toList.length s.toList⟩

/-- Drop the first `n` characters of a string. -/
def strDrop (s : String) (n : Nat) : String :=
  ⟨s.toList.drop n⟩

/-- Python `pathlib.Path(s).name`: the final path component.  `pathlib`
drops empty components and `"."` components when parsing. -/
def pathName (s : String) : String :=
  (((pySplitChar s '/').filter (fun c => c ≠ "" ∧ c ≠ ".")).getLastD "")

/-- Python `pathlib.Path(s).suffix`: the extension of the final component,
nonempty only when the final component contains a dot that is neither its
first nor its last character. -/
def pathSuffix (s : String) : String :=
  let name := (pathName s).toList
  let tail := name.reverse.takeWhile (fun c => c ≠ '.')
  if tail.length = name.length then ""
  else if tail.length = 0 then ""
  else if tail.length = name.length - 1 then ""
  else ⟨'.' :: tail.reverse⟩

/-- Python exception kinds relevant to this program, together with the
error names the specification introduces for its rewrite (`TransferError`,
`UnsupportedFormatError`); the latter are needed to state the spec's claims
and are never produced by the embedded source. -/
inductive PyError
  | valueError
  | typeError
  | attributeError
  | serializationError
  | transferError
  | unsupportedFormatError
deriving DecidableEq, Repr

/-- Outcome of a Python call: a normal return value or a raised exception. -/
inductive PyResult (α : Type)
  | ok (a : α)
  | exn (e : PyError)
deriving DecidableEq, Repr

/-- A dynamically typed Python argument value, needed because
`save_data_to_bucket` passes a `bool` positionally into the `bucket_name`
parameter of `_save_excel_workbook`. -/
inductive PyArg
  | pnone
  | pstr (s : String)
  | pbool (b : Bool)
deriving DecidableEq, Repr

/-- Python truthiness of a `PyArg` (`None` and `''` and `False` are falsy). -/
def PyArg.truthy : PyArg → Bool
  | .pnone => false
  | .pstr s => s ≠ ""
  | .pbool b => b

/-- Observable side effects of one call: subprocess invocations, temp-file
lifecycle, local-file lifecycle, pandas serialization calls, image display. -/
inductive Event
  | cmd (c : List String) (rc : Int)
  | tmpCreate (name : String)
  | tmpDelete (name : String)
  | localCreate (name : String)
  | localDelete (name : String)
  | dfWrite (path : String) (ext : String) (df : Nat) (index : Option Bool)
  | dfRead (path : String) (ext : String)
  | sheetWrite (sheet : String) (df : Nat) (index : Bool)
  | bytesRead (name : String)
  | display (name : String)
deriving DecidableEq, Repr

/-- The mutable world state threaded through an operation: the set of live
temporary files, the set of live local files in the working directory, and
the trace of observable events. -/
structure World where
  tmp : List String
  locals : List String
  events : List Event
deriving DecidableEq, Repr

/-- The empty starting world. -/
def wEmpty : World := ⟨[], [], []⟩

/-- The external `gcloud` CLI collaborator: maps a command line to its
(return code, stdout). -/
def Runner : Type := List String → Int × String

/-- Run a subprocess and record the invocation. -/
def World.run (w : World) (runner : Runner) (c : List String) :
    (Int × String) × World :=
  let r := runner c
  (r, { w with events := w.events ++ [Event.cmd c r.1] })

/-- Create a named temporary file (`tempfile.NamedTemporaryFile` with
`delete=False`). -/
def World.mkTmp (w : World) (n : String) : World :=
  { w with tmp := w.tmp ++ [n], events := w.events ++ [Event.tmpCreate n] }

/-- Delete a temporary file (`os.unlink`). -/
def World.unlinkTmp (w : World) (n : String) : World :=
  { w with tmp := w.tmp.erase n, events := w.events ++ [Event.tmpDelete n] }

/-- A download creates a file in the local working directory. -/
def World.addLocal (w : World) (n : String) : World :=
  { w with locals := w.locals ++ [n],
           events := w.events ++ [Event.localCreate n] }

/-- Delete a local file (`os.unlink`). -/
def World.removeLocal (w : World) (n : String) : World :=
  { w with locals := w.locals.erase n,
           events := w.events ++ [Event.localDelete n] }

/-- The session configuration produced by `GCPDataStorage.__init__`. -/
structure Session where
  bucket_name : String
  directory : String
  project_id : Option String
deriving DecidableEq, Repr

/-- The process environment visible to `__init__`: environment variables,
and the (stripped-for-success) stdout of the two `gcloud config get-value`
fallback commands, `none` when the command fails or `gcloud` is absent. -/
structure Env where
  vars : String → Option String
  gcloudBucket : Option String
  gcloudProject : Option String

/-- Ordered env-var lookup of `_resolve_bucket_name` (source lines 68-79):
the first truthy value among the four candidate variables, with a leading
`gs://` removal applied by the caller. -/
def envBucketLookup (env : Env) : Option String :=
  ["WORKSPACE_BUCKET", "GCS_BUCKET", "GOOGLE_CLOUD_BUCKET",
   "BUCKET_NAME"].findSome?
    (fun v =>
      match env.vars v with
      | some s => if s ≠ "" then some s else none
      | none => none)

/-- The `gcloud config get-value storage/bucket` fallback (source lines
81-90): the stripped stdout when the command succeeded and produced a
truthy value. -/
def gcloudBucketVal (env : Env) : Option String :=
  match env.gcloudBucket with
  | some out => if pyStrip out ≠ "" then some (pyStrip out) else none
  | none => none

/-- Fallback chain of `_resolve_bucket_name` when no truthy `bucket_name`
argument is supplied: env vars, then gcloud config, then `ValueError`. -/
def resolve_bucket_fallback (env : Env) : PyResult String :=
  match envBucketLookup env with
  | some b => .ok (pyReplace b "gs://" "")
  | none =>
    match gcloudBucketVal env with
    | some s => .ok s
    | none => .exn .valueError

/-- `GCPDataStorage._resolve_bucket_name` (source lines 63-95). -/
def resolve_bucket_name (env : Env) (bucket_name : Option String) :
    PyResult String :=
  match bucket_name with
  | some b =>
    if b ≠ "" then .ok (pyReplace b "gs://" "")
    else resolve_bucket_fallback env
  | none => resolve_bucket_fallback env

/-- Ordered env-var lookup of `_resolve_project_id` (source lines 102-107). -/
def envProjectLookup (env : Env) : Option String :=
  ["GOOGLE_CLOUD_PROJECT", "GCP_PROJECT", "PROJECT_ID"].findSome?
    (fun v =>
      match env.vars v with
      | some s => if s ≠ "" then some s else none
      | none => none)

/-- The `gcloud config get-value project` fallback (source lines 109-118). -/
def gcloudProjectVal (env : Env) : Option String :=
  match env.gcloudProject with
  | some out => if pyStrip out ≠ "" then some (pyStrip out) else none
  | none => none

/-- `GCPDataStorage._resolve_project_id` (source lines 97-120): never
raises, returns `none` when nothing is found. -/
def resolve_project_id (env : Env) (project_id : Option String) :
    Option String :=
  match project_id with
  | some p =>
    if p ≠ "" then some p
    else
      match envProjectLookup env with
      | some q => some q
      | none => gcloudProjectVal env
  | none =>
    match envProjectLookup env with
    | some q => some q
    | none => gcloudProjectVal env

/-- `GCPDataStorage.__init__` (source lines 37-61): resolves the bucket
first — raising `ValueError` when none can be determined — then strips the
directory and resolves the project id.  The storage-client construction is
wrapped in `try/except` in the source and cannot fail the constructor. -/
def initStorage (env : Env) (bucket_name : Option String)
    (directory : String) (project_id : Option String) : PyResult Session :=
  match resolve_bucket_name env bucket_name with
  | .exn e => .exn e
  | .ok b => .ok ⟨b, stripSlashes directory, resolve_project_id env project_id⟩

/-- `GCPDataStorage._construct_gcs_path` (source lines 146-163), at the
call type used by every caller that passes strings or `None`:
`bucket = bucket_name or self.bucket_name` (Python truthiness),
`dir_path = directory if directory is not None else self.directory`; a
filename already carrying `gs://` is returned unchanged; otherwise all
occurrences of `gs://` are removed from the bucket (`str.replace`), the
directory and filename are stripped of `/`, and the parts are joined. -/
def construct_gcs_path (self : Session) (filename : String)
    (bucket_name directory : Option String) : String :=
  let bucket :=
    match bucket_name with
    | some b => if b ≠ "" then b else self.bucket_name
    | none => self.bucket_name
  let dir_path :=
    match directory with
    | some d => d
    | none => self.directory
  if pyStartsWith filename "gs://" then filename
  else
    let bucket := pyReplace bucket "gs://" ""
    let dir_path := stripSlashes dir_path
    let filename := stripSlashes filename
    if dir_path ≠ "" then
      "gs://" ++ bucket ++ "/" ++ dir_path ++ "/" ++ filename
    else
      "gs://" ++ bucket ++ "/" ++ filename

/-- `GCPDataStorage._construct_gcs_path` at the dynamically typed call
arising from the dict-payload branch of `save_data_to_bucket`, which passes
a `bool` positionally as `bucket_name`.  A non-string effective bucket or
directory would fail with `AttributeError` at `.replace`/`.strip` — but
only after the `startswith` passthrough check. -/
def constructPathDyn (self : Session) (filename : String)
    (bucket_name directory : PyArg) : PyResult String :=
  let bucket : PyArg :=
    if bucket_name.truthy then bucket_name else .pstr self.bucket_name
  let dir_path : PyArg :=
    match directory with
    | .pnone => .pstr self.directory
    | x => x
  if pyStartsWith filename "gs://" then .ok filename
  else
    match bucket, dir_path with
    | .pstr b, .pstr d =>
      let b := pyReplace b "gs://" ""
      let d := stripSlashes d
      let f := stripSlashes filename
      if d ≠ "" then .ok ("gs://" ++ b ++ "/" ++ d ++ "/" ++ f)
      else .ok ("gs://" ++ b ++ "/" ++ f)
    | _, _ => .exn .attributeError

/-- `gcs_path.split('/')[2]`, the bucket component extracted by
`save_data_to_bucket` and `read_data_from_bucket` before validation. -/
def bucketOf (p : String) : String :=
  (pySplitChar p '/').getD 2 ""

/-- `GCPDataStorage._validate_bucket_access` (source lines 122-144), in the
CLI-fallback branch (`self.client is None`): run `gcloud storage ls` on the
bucket and report whether it exited zero.  Never raises. -/
def validate_bucket_access (runner : Runner) (b : String) (w : World) :
    Bool × World :=
  let (res, w) := w.run runner ["gcloud", "storage", "ls", "gs://" ++ b]
  (res.1 == 0, w)

/-- The tabular extensions of `_save_dataframe` / `read_data_from_bucket`. -/
def tabularExts : List String := [".csv", ".tsv", ".xlsx", ".parquet", ".json"]

/-- The image extensions `read_data_from_bucket` routes to `_read_image`. -/
def imageReadExts : List String := [".png", ".jpg", ".jpeg", ".pdf", ".svg"]

/-- `plot_extensions` from `_save_plot` (source line 236). -/
def plot_extensions : List String :=
  [".png", ".jpg", ".jpeg", ".pdf", ".svg", ".eps", ".tiff"]

/-- The payload of a save call, by the `isinstance`/`hasattr` dispatch of
`save_data_to_bucket`: a DataFrame (identified by an id), a dict of
DataFrames, a plot object (carrying whether its `savefig` call succeeds),
a raw string, raw bytes, or any other object. -/
inductive SaveData
  | dataframe (df : Nat)
  | sheets (ss : List (String × Nat))
  | plot (savefigOk : Bool)
  | rawStr (s : String)
  | rawBytes (n : Nat)
  | other
deriving DecidableEq, Repr

/-- The value returned by a read call: `None`, an in-memory DataFrame read
from a path, an `IPython` `Image` object, a local filename string, or the
raw bytes of a downloaded file. -/
inductive ReadResult
  | pyNone
  | dataframe (path : String) (ext : String)
  | image (localName : String)
  | localPath (p : String)
  | bytesOf (p : String)
deriving DecidableEq, Repr

/-- `GCPDataStorage._save_dataframe` (source lines 215-232): serialize via
the matching pandas codec directly to the GCS path (no subprocess), `True`
on success, `False` for an unsupported extension.  The `.json` codec is
called without the `index` argument. -/
def save_dataframe (df : Nat) (gcs_path file_ext : String) (index : Bool)
    (w : World) : PyResult Bool × World :=
  if file_ext = ".json" then
    (.ok true,
     { w with events := w.events ++ [Event.dfWrite gcs_path file_ext df none] })
  else if tabularExts.contains file_ext then
    (.ok true,
     { w with events :=
        w.events ++ [Event.dfWrite gcs_path file_ext df (some index)] })
  else (.ok false, w)

/-- `GCPDataStorage._save_plot` (source lines 234-255): reject non-plot
extensions, else stage via `savefig` into a temp file, `gcloud storage cp`,
unlink, return `returncode == 0`.  A raising `savefig` propagates out with
the temp file still on disk (`delete=False`, no `finally`). -/
def save_plot (runner : Runner) (savefigOk : Bool)
    (gcs_path file_ext tmpName : String) (w : World) : PyResult Bool × World :=
  if !(plot_extensions.contains file_ext) then (.ok false, w)
  else
    let w := w.mkTmp tmpName
    if !savefigOk then (.exn .serializationError, w)
    else
      let (res, w) := w.run runner ["gcloud", "storage", "cp", tmpName, gcs_path]
      let w := w.unlinkTmp tmpName
      (.ok (res.1 == 0), w)

/-- `GCPDataStorage._save_file` (source lines 257-292): a `str`/`bytes`
payload is staged through a temp file and copied; any other payload is
assumed to be a file already on disk and `filename` itself is copied. -/
def save_file (runner : Runner) (data : SaveData)
    (gcs_path filename tmpName : String) (w : World) : PyResult Bool × World :=
  match data with
  | .rawStr _ | .rawBytes _ =>
    let w := w.mkTmp tmpName
    let (res, w) := w.run runner ["gcloud", "storage", "cp", tmpName, gcs_path]
    let w := w.unlinkTmp tmpName
    (.ok (res.1 == 0), w)
  | _ =>
    let (res, w) := w.run runner ["gcloud", "storage", "cp", filename, gcs_path]
    (.ok (res.1 == 0), w)

/-- `GCPDataStorage._save_excel_workbook` (source lines 294-338).  The
`excelOk` flag models whether the `df.to_excel` writer loop raises; a raise
is caught by the function's own `except` and yields `False`, with the temp
file left on disk.  Note the signature: `bucket_name` and `directory` are
the second and third parameters after the sheets dict, which is what the
caller in `save_data_to_bucket` fills positionally with `index`. -/
def save_excel_workbook (self : Session) (sheets : List (String × Nat))
    (filename : String) (bucket_name directory : PyArg) (index : Bool)
    (excelOk : Bool) (runner : Runner) (tmpName : String) (w : World) :
    PyResult Bool × World :=
  let filename := if pyEndsWith filename ".xlsx" then filename
                  else filename ++ ".xlsx"
  match constructPathDyn self filename bucket_name directory with
  | .exn e => (.exn e, w)
  | .ok gcs_path =>
    let w := w.mkTmp tmpName
    if !excelOk then (.ok false, w)
    else
      let written :=
        sheets.map (fun (p : String × Nat) => Event.sheetWrite p.1 p.2 index)
      let w := { w with events := w.events ++ written }
      let (res, w) := w.run runner ["gcloud", "storage", "cp", tmpName, gcs_path]
      let w := w.unlinkTmp tmpName
      (.ok (res.1 == 0), w)

/-- `GCPDataStorage.save_data_to_bucket` (source lines 165-213): resolve
the path, validate bucket access (`False` on failure), then dispatch on the
payload type; the dict branch calls `_save_excel_workbook(data, gcs_path,
index)`, so `index` lands in its `bucket_name` parameter and its own
`index` parameter keeps the default `True`.  Exceptions from the handlers
are caught and turned into `False`. -/
def save_data_to_bucket (self : Session) (runner : Runner) (data : SaveData)
    (filename : String) (bucket_name directory : Option String)
    (index : Bool) (excelOk : Bool) (tmpName : String) (w : World) :
    PyResult Bool × World :=
  let gcs_path := construct_gcs_path self filename bucket_name directory
  let (okA, w) := validate_bucket_access runner (bucketOf gcs_path) w
  if !okA then (.ok false, w)
  else
    let file_ext := pyLower (pathSuffix filename)
    let r :=
      match data with
      | .dataframe df => save_dataframe df gcs_path file_ext index w
      | .sheets ss =>
        save_excel_workbook self ss gcs_path (PyArg.pbool index) PyArg.pnone
          true excelOk runner tmpName w
      | .plot okP => save_plot runner okP gcs_path file_ext tmpName w
      | .rawStr s => save_file runner (.rawStr s) gcs_path filename tmpName w
      | .rawBytes n => save_file runner (.rawBytes n) gcs_path filename tmpName w
      | .other => save_file runner .other gcs_path filename tmpName w
    match r with
    | (.exn _, w) => (.ok false, w)
    | other => other

/-- `GCPDataStorage._read_dataframe` (source lines 384-421): with
`local_only` it downloads next to the notebook and returns `None`;
otherwise it reads via the pandas codec straight from the GCS path,
optionally downloading a local copy afterwards. -/
def read_dataframe (runner : Runner) (gcs_path file_ext : String)
    (save_copy_locally local_only : Bool) (w : World) :
    PyResult ReadResult × World :=
  if local_only then
    let lf := pathName gcs_path
    let (res, w) := w.run runner ["gcloud", "storage", "cp", gcs_path, lf]
    let w := if res.1 == 0 then w.addLocal lf else w
    (.ok .pyNone, w)
  else if tabularExts.contains file_ext then
    let w := { w with events := w.events ++ [Event.dfRead gcs_path file_ext] }
    let w :=
      if save_copy_locally then
        let lf := pathName gcs_path
        let (res, w2) := w.run runner ["gcloud", "storage", "cp", gcs_path, lf]
        if res.1 == 0 then w2.addLocal lf else w2
      else w
    (.ok (.dataframe gcs_path file_ext), w)
  else (.ok .pyNone, w)

/-- `GCPDataStorage._read_image` (source lines 423-443): download, then —
note there is no `local_only` parameter — either return an `Image` for the
kept local copy, or construct the `Image`, display it, delete the local
file and return the `Image`. -/
def read_image (runner : Runner) (gcs_path filename : String)
    (save_copy_locally : Bool) (w : World) : PyResult ReadResult × World :=
  let lf := pathName filename
  let (res, w) := w.run runner ["gcloud", "storage", "cp", gcs_path, lf]
  if res.1 == 0 then
    let w := w.addLocal lf
    if save_copy_locally then (.ok (.image lf), w)
    else
      let w := { w with events := w.events ++ [Event.display lf] }
      let w := w.removeLocal lf
      (.ok (.image lf), w)
  else (.ok .pyNone, w)

/-- `GCPDataStorage._read_generic_file` (source lines 445-465): download,
then either return the local filename (`save_copy_locally or local_only`)
or read the bytes, delete the local file and return the bytes. -/
def read_generic_file (runner : Runner) (gcs_path filename : String)
    (save_copy_locally local_only : Bool) (w : World) :
    PyResult ReadResult × World :=
  let lf := pathName filename
  let (res, w) := w.run runner ["gcloud", "storage", "cp", gcs_path, lf]
  if res.1 == 0 then
    let w := w.addLocal lf
    if save_copy_locally || local_only then (.ok (.localPath lf), w)
    else
      let w := { w with events := w.events ++ [Event.bytesRead lf] }
      let w := w.removeLocal lf
      (.ok (.bytesOf lf), w)
  else (.ok .pyNone, w)

/-- `GCPDataStorage.read_data_from_bucket` (source lines 340-382): resolve
the path, validate access (`None` on failure), then dispatch on the
lower-cased suffix: five tabular extensions, five image extensions
(`.eps`/`.tiff` are NOT among them), everything else generic.  Exceptions
from handlers are caught and become `None`. -/
def read_data_from_bucket (self : Session) (runner : Runner)
    (filename : String) (bucket_name directory : Option String)
    (save_copy_locally local_only : Bool) (w : World) :
    PyResult ReadResult × World :=
  let gcs_path := construct_gcs_path self filename bucket_name directory
  let (okA, w) := validate_bucket_access runner (bucketOf gcs_path) w
  if !okA then (.ok .pyNone, w)
  else
    let file_ext := pyLower (pathSuffix filename)
    let r :=
      if tabularExts.contains file_ext then
        read_dataframe runner gcs_path file_ext save_copy_locally local_only w
      else if imageReadExts.contains file_ext then
        read_image runner gcs_path filename save_copy_locally w
      else
        read_generic_file runner gcs_path filename save_copy_locally local_only w
    match r with
    | (.exn _, w) => (.ok .pyNone, w)
    | other => other

/-- `GCPDataStorage.copy_between_buckets` (source lines 467-501): resolve
relative paths, run one `gcloud storage cp`, return `returncode == 0`.
The `try/except` catches any exception into `False`; no typed error is
raised. -/
def copy_between_buckets (self : Session) (runner : Runner)
    (source_path destination_path : String) (w : World) :
    PyResult Bool × World :=
  let source_path :=
    if pyStartsWith source_path "gs://" then source_path
    else construct_gcs_path self source_path none none
  let destination_path :=
    if pyStartsWith destination_path "gs://" then destination_path
    else construct_gcs_path self destination_path none none
  let (res, w) :=
    w.run runner ["gcloud", "storage", "cp", source_path, destination_path]
  (.ok (res.1 == 0), w)

/-- `GCPDataStorage.list_files` (source lines 503-543): build the search
path, run `gcloud storage ls`, split stdout into stripped non-empty lines;
a non-zero exit yields `[]`. -/
def list_files (self : Session) (runner : Runner) (pattern : String)
    (bucket_name directory : Option String) (recursive : Bool) (w : World) :
    List String × World :=
  let bucket :=
    match bucket_name with
    | some b => if b ≠ "" then b else self.bucket_name
    | none => self.bucket_name
  let dir_path :=
    match directory with
    | some d => d
    | none => self.directory
  let search_path :=
    if recursive && (pattern == "*") then "gs://" ++ bucket ++ "/**"
    else construct_gcs_path self pattern (some bucket) (some dir_path)
  let (res, w) := w.run runner ["gcloud", "storage", "ls", search_path]
  if res.1 == 0 then
    (((pySplitChar res.2 '\n').map pyStrip).filter (fun l => l ≠ ""), w)
  else ([], w)

/-- `GCPDataStorage.delete_file` (source lines 545-584): with `confirm`
set, a response whose lower-casing is neither `yes` nor `y` cancels the
deletion — `False` is returned and no command is run.  Otherwise one
`gcloud storage rm` is run and `returncode == 0` returned. -/
def delete_file (self : Session) (runner : Runner) (filename : String)
    (bucket_name directory : Option String) (confirm : Bool)
    (response : String) (w : World) : PyResult Bool × World :=
  let gcs_path := construct_gcs_path self filename bucket_name directory
  if confirm && !(["yes", "y"].contains (pyLower response)) then (.ok false, w)
  else
    let (res, w) := w.run runner ["gcloud", "storage", "rm", gcs_path]
    (.ok (res.1 == 0), w)

/-- The path-resolution rule exactly as claim C2 words it, for comparison
with the source: effective bucket = the override if one is given (even an
empty string) else the session default; a LEADING `gs://` prefix is
stripped from the effective bucket; directory and filename are stripped of
slashes; the address is `gs://bucket/directory/filename`, the directory
segment present only when non-empty. -/
def claimedResolve (self : Session) (filename : String)
    (b d : Option String) : String :=
  let bucket :=
    match b with
    | some s => s
    | none => self.bucket_name
  let dir :=
    stripSlashes
      (match d with
       | some s => s
       | none => self.directory)
  let bucket :=
    if pyStartsWith bucket "gs://" then strDrop bucket 5 else bucket
  let fname := stripSlashes filename
  if dir ≠ "" then "gs://" ++ bucket ++ "/" ++ dir ++ "/" ++ fname
  else "gs://" ++ bucket ++ "/" ++ fname

/-- Claim C2 amended to match the source: the override is used only when it
is non-empty (Python truthiness of `bucket_name or self.bucket_name`), and
EVERY occurrence of the substring `gs://` is removed from the effective
bucket (`str.replace`), not only a leading prefix. -/
def claimedResolveAmended (self : Session) (filename : String)
    (b d : Option String) : String :=
  let bucket :=
    match b with
    | some s => if s ≠ "" then s else self.bucket_name
    | none => self.bucket_name
  let dir :=
    stripSlashes
      (match d with
       | some s => s
       | none => self.directory)
  let bucket2 := pyReplace bucket "gs://" ""
  let fname := stripSlashes filename
  if dir = "" then "gs://" ++ bucket2 ++ "/" ++ fname
  else "gs://" ++ bucket2 ++ "/" ++ dir ++ "/" ++ fname

/-- A prefix of `s` is a prefix of `s ++ t`. -/
theorem isPrefixOf_append_of (p s t : List Char)
    (h : p.isPrefixOf s = true) : p.isPrefixOf (s ++ t) = true := by
  induction p generalizing s with
  | nil => simp [List.isPrefixOf]
  | cons a as ih =>
    cases s with
    | nil => simp [List.isPrefixOf] at h
    | cons b bs =>
      simp only [List.isPrefixOf, List.cons_append, Bool.and_eq_true] at h ⊢
      exact ⟨h.1, ih bs h.2⟩

/-- `startswith` is preserved by appending on the right. -/
theorem pyStartsWith_append (s t p : String)
    (h : pyStartsWith s p = true) : pyStartsWith (s ++ t) p = true := by
  cases s with
  | mk ls =>
    cases t with
    | mk lt =>
      unfold pyStartsWith at h ⊢
      exact isPrefixOf_append_of _ _ _ h

/-- Every address produced by the resolver carries the `gs://` scheme. -/
theorem construct_startsWith (self : Session) (filename : String)
    (b d : Option String) :
    pyStartsWith (construct_gcs_path self filename b d) "gs://" = true := by
  unfold construct_gcs_path
  by_cases hfn : pyStartsWith filename "gs://" = true
  · simp [hfn]
  · simp only [hfn, Bool.false_eq_true, if_false]
    split
    · apply pyStartsWith_append
      apply pyStartsWith_append
      apply pyStartsWith_append
      apply pyStartsWith_append
      apply pyStartsWith_append
      decide
    · apply pyStartsWith_append
      apply pyStartsWith_append
      apply pyStartsWith_append
      decide

/-- Removing the element just appended recovers the original list when the
element was not already present. -/
theorem erase_append_singleton (l : List String) (a : String)
    (h : a ∉ l) : (l ++ [a]).erase a = l := by
  induction l with
  | nil => simp
  | cons x xs ih =>
    have hx : a ≠ x := fun hax => h (hax ▸ List.mem_cons_self x xs)
    have hxs : a ∉ xs := fun hm => h (List.mem_cons_of_mem x hm)
    simp only [List.cons_append, List.erase_cons]
    rw [if_neg (fun hxa => hx (by simp_all)), ih hxs]

/-- C1.  For every filename that already carries the `gs://` scheme prefix
and for every bucket and directory override (including `None`), the path
resolver returns the filename unchanged: resolving an already-canonical
address is the identity and the overrides have no effect. -/
theorem resolver_passthrough_identity (self : Session) (filename : String)
    (b d : Option String) (h : pyStartsWith filename "gs://" = true) :
    construct_gcs_path self filename b d = filename := by
  unfold construct_gcs_path
  simp [h]

/-- Witness for C1 at a concrete already-canonical address with both
overrides supplied. -/
theorem resolver_passthrough_identity_witness :
    pyStartsWith "gs://x/y.csv" "gs://" = true ∧
    construct_gcs_path ⟨"bkt", "dir", none⟩ "gs://x/y.csv" (some "other")
      (some "sub") = "gs://x/y.csv" :=
  ⟨by decide,
   resolver_passthrough_identity ⟨"bkt", "dir", none⟩ "gs://x/y.csv"
     (some "other") (some "sub") (by decide)⟩

/-- Counterexample to C2 as stated.  First input: the effective bucket
`"ags://b"` has no leading `gs://` prefix, so the claim's rule leaves it
alone and prescribes `gs://ags://b/f.csv`, but the source removes the
embedded occurrence (`str.replace` removes every occurrence) and produces
`gs://ab/f.csv`.  Second input: the empty-string bucket override is
"given", so the claim prescribes using it (`gs:///f.csv`), but the source's
`bucket_name or self.bucket_name` falls back to the session default. -/
theorem resolver_spec_counterexample :
    construct_gcs_path ⟨"bkt", "", none⟩ "f.csv" (some "ags://b") none
      = "gs://ab/f.csv" ∧
    claimedResolve ⟨"bkt", "", none⟩ "f.csv" (some "ags://b") none
      = "gs://ags://b/f.csv" ∧
    construct_gcs_path ⟨"bkt", "", none⟩ "f.csv" (some "ags://b") none ≠
      claimedResolve ⟨"bkt", "", none⟩ "f.csv" (some "ags://b") none ∧
    construct_gcs_path ⟨"bkt", "", none⟩ "f.csv" (some "") none
      = "gs://bkt/f.csv" ∧
    claimedResolve ⟨"bkt", "", none⟩ "f.csv" (some "") none
      = "gs:///f.csv" := by decide

/-- C2 amended.  For every filename not carrying the scheme prefix, the
resolver behaves as the claim states except that (i) the bucket override is
used only when non-empty and (ii) every occurrence of `gs://` is removed
from the effective bucket, not only a leading prefix. -/
theorem resolver_amended (self : Session) (filename : String)
    (b d : Option String) (h : pyStartsWith filename "gs://" = false) :
    construct_gcs_path self filename b d
      = claimedResolveAmended self filename b d := by
  unfold construct_gcs_path claimedResolveAmended
  simp only [h, Bool.false_eq_true, if_false]
  by_cases hd :
      stripSlashes
        (match d with
         | some s => s
         | none => self.directory) = "" <;>
    simp [hd]

/-- Witness for C2 amended at a concrete input exercising the non-trivial
replace-all path. -/
theorem resolver_amended_witness :
    pyStartsWith "f.csv" "gs://" = false ∧
    construct_gcs_path ⟨"bkt", "d", none⟩ "f.csv" (some "ags://b") none
      = claimedResolveAmended ⟨"bkt", "d", none⟩ "f.csv" (some "ags://b") none :=
  ⟨by decide,
   resolver_amended ⟨"bkt", "d", none⟩ "f.csv" (some "ags://b") none (by decide)⟩

/-- C7.  Whenever no bucket can be determined — no truthy `bucket_name`
argument, no truthy candidate environment variable, and no usable `gcloud`
config value — session construction itself fails (the source raises
`ValueError` from `_resolve_bucket_name`, called on the first line of
`__init__`): no session value is ever produced, so the failure cannot be
deferred to a later save/read/copy/list/delete call, all of which require a
constructed `Session`. -/
theorem init_no_bucket_fails (env : Env) (bn : Option String)
    (dir : String) (pid : Option String)
    (h1 : bn = none ∨ bn = some "") (h2 : envBucketLookup env = none)
    (h3 : gcloudBucketVal env = none) :
    initStorage env bn dir pid = .exn .valueError := by
  rcases h1 with h | h <;> subst h <;>
    simp [initStorage, resolve_bucket_name, resolve_bucket_fallback, h2, h3]

/-- Witness for C7 in a fully empty environment. -/
theorem init_no_bucket_fails_witness :
    envBucketLookup ⟨fun _ => none, none, none⟩ = none ∧
    gcloudBucketVal ⟨fun _ => none, none, none⟩ = none ∧
    initStorage ⟨fun _ => none, none, none⟩ none "" none
      = .exn .valueError :=
  ⟨rfl, rfl,
   init_no_bucket_fails ⟨fun _ => none, none, none⟩ none "" none
     (Or.inl rfl) rfl rfl⟩

/-- C8.  For every delete call with confirmation enabled whose response is
not affirmative (its lower-casing is neither `yes` nor `y`), no external
command is run — the world is returned unchanged — and the call reports
cancellation (`False`), not success. -/
theorem delete_requires_confirmation (self : Session) (runner : Runner)
    (filename : String) (b d : Option String) (response : String) (w : World)
    (h : (["yes", "y"].contains (pyLower response)) = false) :
    delete_file self runner filename b d true response w = (.ok false, w) := by
  unfold delete_file
  simp only [h]
  simp

/-- Witness for C8 with the response `no`. -/
theorem delete_requires_confirmation_witness :
    (["yes", "y"].contains (pyLower "no")) = false ∧
    delete_file ⟨"bkt", "", none⟩ (fun _ => (0, "")) "f.csv" none none true
      "no" wEmpty = (.ok false, wEmpty) :=
  ⟨by decide,
   delete_requires_confirmation ⟨"bkt", "", none⟩ (fun _ => (0, "")) "f.csv"
     none none "no" wEmpty (by decide)⟩

/-- A collaborator whose every command succeeds with empty stdout. -/
def okRunner : Runner := fun _ => (0, "")

/-- A collaborator whose every command exits with status 1. -/
def failRunner : Runner := fun _ => (1, "")

/-- Lift the `Optional[str]` arguments of the ordinary call sites into the
dynamic argument type. -/
def optToArg : Option String → PyArg
  | none => .pnone
  | some s => .pstr s

/-- On an already-canonical filename the dynamically typed resolver is the
identity whatever the (possibly boolean) overrides are. -/
theorem constructPathDyn_passthrough (self : Session) (fn : String)
    (bArg dArg : PyArg) (h : pyStartsWith fn "gs://" = true) :
    constructPathDyn self fn bArg dArg = .ok fn := by
  unfold constructPathDyn
  simp [h]

/-- On string-typed arguments the dynamically typed resolver agrees with
the string-typed one and never raises. -/
theorem constructPathDyn_str (self : Session) (fn : String)
    (bs ds : Option String) :
    constructPathDyn self fn (optToArg bs) (optToArg ds)
      = .ok (construct_gcs_path self fn bs ds) := by
  unfold constructPathDyn construct_gcs_path
  by_cases hfn : pyStartsWith fn "gs://" = true
  · simp [hfn]
  · cases bs with
    | none =>
      cases ds <;> simp [optToArg, PyArg.truthy, hfn, apply_ite] <;>
        (split <;> intro hc <;> simp_all)
    | some s =>
      by_cases hs : s = "" <;> cases ds <;>
        simp [optToArg, PyArg.truthy, hfn, hs, apply_ite] <;>
        (split <;> intro hc <;> simp_all)

/-- Counterexample to C3 as stated.  A bucket-to-bucket copy whose
underlying `gcloud storage cp` exits with status 1 returns the plain
boolean `False` — the non-zero status is exactly "swallowed into a plain
boolean": no `TransferError` (no exception at all) reaches the caller. -/
theorem typed_failure_counterexample :
    (copy_between_buckets ⟨"bkt", "", none⟩ failRunner "a.csv" "b.csv"
      wEmpty).1 = .ok false ∧
    (copy_between_buckets ⟨"bkt", "", none⟩ failRunner "a.csv" "b.csv"
      wEmpty).2.events
      = [Event.cmd ["gcloud", "storage", "cp", "gs://bkt/a.csv",
          "gs://bkt/b.csv"] 1] ∧
    (PyResult.ok false : PyResult Bool) ≠ .exn .transferError := by decide

/-- A collaborator whose `ls` commands succeed while every other command
(`cp`, `rm`) exits with status 1: bucket validation passes and the actual
transfer fails. -/
def lsOkCpFailRunner : Runner := fun c =>
  if c.getD 2 "" = "ls" then (0, "") else (1, "")

/-- The destination the workbook helper uploads to: the already-resolved
address with `.xlsx` appended when missing. -/
def xlsxDest (g : String) : String :=
  if pyEndsWith g ".xlsx" then g else g ++ ".xlsx"

/-- C3 amended.  For every operation whose underlying external copy (or
delete) command reports a non-zero exit status — bucket validation having
succeeded, so the copy command really runs — the failure is reported as a
plain value: `False` from the plot, raw string, workbook and on-disk-file
save paths, `None` from image and generic reads, `False` from
bucket-to-bucket copy and delete, `[]` from list.  No `TransferError`
(indeed no exception) is surfaced: the source has no typed error channel
and turns every non-zero returncode into these plain values. -/
theorem nonzero_exit_plain_failure (self : Session) (runner : Runner)
    (fn src dst pat resp tmp s : String) (ss : List (String × Nat))
    (b d : Option String) (idx exOk scl lo rec : Bool) (w : World)
    (hv : (runner ["gcloud", "storage", "ls",
        "gs://" ++ bucketOf (construct_gcs_path self fn b d)]).1 = 0)
    (hcp : ∀ c : List String, c.getD 2 "" = "cp" → (runner c).1 ≠ 0)
    (hrm : ∀ c : List String, c.getD 2 "" = "rm" → (runner c).1 ≠ 0) :
    (pyLower (pathSuffix fn) ∈ plot_extensions →
      (save_data_to_bucket self runner (.plot true) fn b d idx exOk
        tmp w).1 = .ok false) ∧
    (save_data_to_bucket self runner (.rawStr s) fn b d idx exOk tmp w).1
      = .ok false ∧
    (save_data_to_bucket self runner (.sheets ss) fn b d idx true tmp w).1
      = .ok false ∧
    (save_data_to_bucket self runner .other fn b d idx exOk tmp w).1
      = .ok false ∧
    (pyLower (pathSuffix fn) ∉ tabularExts →
      (read_data_from_bucket self runner fn b d scl lo w).1 = .ok .pyNone) ∧
    (copy_between_buckets self runner src dst w).1 = .ok false ∧
    (delete_file self runner fn b d false resp w).1 = .ok false ∧
    (∀ runner2 : Runner, (∀ c, (runner2 c).1 ≠ 0) →
      (list_files self runner2 pat b d rec w).1 = []) ∧
    (copy_between_buckets self runner src dst w).1
      ≠ .exn .transferError := by
  have hcpF : ∀ x y : String,
      ((runner ["gcloud", "storage", "cp", x, y]).1 == 0) = false := by
    intro x y
    simpa using hcp ["gcloud", "storage", "cp", x, y] rfl
  have hrmF : ∀ x : String,
      ((runner ["gcloud", "storage", "rm", x]).1 == 0) = false := by
    intro x
    simpa using hrm ["gcloud", "storage", "rm", x] rfl
  refine ⟨?_, ?_, ?_, ?_, ?_, ?_, ?_, ?_, ?_⟩
  · intro hm
    simp [save_data_to_bucket, validate_bucket_access, World.run, save_plot,
      World.mkTmp, World.unlinkTmp, hv, hm, hcpF]
  · simp [save_data_to_bucket, validate_bucket_access, World.run, save_file,
      World.mkTmp, World.unlinkTmp, hv, hcpF]
  · have hgs : pyStartsWith (xlsxDest (construct_gcs_path self fn b d))
        "gs://" = true := by
      unfold xlsxDest
      split
      · exact construct_startsWith self fn b d
      · exact pyStartsWith_append _ _ _ (construct_startsWith self fn b d)
    have hdyn := constructPathDyn_passthrough self
      (xlsxDest (construct_gcs_path self fn b d)) (PyArg.pbool idx)
      PyArg.pnone hgs
    simp only [xlsxDest] at hdyn
    simp only [save_data_to_bucket, save_excel_workbook,
      validate_bucket_access, World.run, xlsxDest]
    rw [hdyn]
    simp [hv, hcpF, World.mkTmp, World.unlinkTmp, World.run]
  · simp [save_data_to_bucket, validate_bucket_access, World.run, save_file,
      hv, hcpF]
  · intro ht
    have htB : tabularExts.contains (pyLower (pathSuffix fn)) = false := by
      simpa using ht
    by_cases him : pyLower (pathSuffix fn) ∈ imageReadExts
    · have himB : imageReadExts.contains (pyLower (pathSuffix fn))
          = true := by simpa using him
      simp [read_data_from_bucket, validate_bucket_access, World.run,
        read_image, World.addLocal, World.removeLocal, hv, ht, htB, him,
        himB, hcpF]
    · have himB : imageReadExts.contains (pyLower (pathSuffix fn))
          = false := by simpa using him
      simp [read_data_from_bucket, validate_bucket_access, World.run,
        read_generic_file, World.addLocal, World.removeLocal, hv, ht, htB,
        him, himB, hcpF]
  · simp [copy_between_buckets, World.run, hcpF]
  · simp [delete_file, World.run, hrmF]
  · intro runner2 hall
    have hb2 : ∀ c, ((runner2 c).1 == 0) = false := by
      intro c
      simpa using hall c
    simp [list_files, World.run, hb2]
  · simp [copy_between_buckets, World.run, hcpF]

/-- Any command of `lsOkCpFailRunner` other than an `ls` exits non-zero. -/
theorem lsOkCpFailRunner_nonls (c : List String)
    (h2 : c.getD 2 "" ≠ "ls") : (lsOkCpFailRunner c).1 ≠ 0 := by
  unfold lsOkCpFailRunner
  rw [if_neg h2]
  decide

/-- Witness for C3 amended: validation succeeds, the staged plot upload's
copy command fails, and the plot save — the cited `_save_plot` path —
reports the plain `False`. -/
theorem nonzero_exit_plain_failure_witness :
    (lsOkCpFailRunner ["gcloud", "storage", "ls", "gs://bkt"]).1 = 0 ∧
    (lsOkCpFailRunner ["gcloud", "storage", "cp", "t1",
      "gs://bkt/fig.png"]).1 ≠ 0 ∧
    pyLower (pathSuffix "fig.png") ∈ plot_extensions ∧
    (save_data_to_bucket ⟨"bkt", "", none⟩ lsOkCpFailRunner (.plot true)
      "fig.png" none none true true "t1" wEmpty).1 = .ok false ∧
    (copy_between_buckets ⟨"bkt", "", none⟩ lsOkCpFailRunner "a.csv"
      "b.csv" wEmpty).1 = .ok false :=
  ⟨by decide, by decide, by decide,
   (nonzero_exit_plain_failure ⟨"bkt", "", none⟩ lsOkCpFailRunner "fig.png"
     "a.csv" "b.csv" "*" "no" "t1" "s" [] none none true true false false
     false wEmpty (by decide)
     (fun c hc => lsOkCpFailRunner_nonls c (by rw [hc]; decide))
     (fun c hc => lsOkCpFailRunner_nonls c (by rw [hc]; decide))).1
     (by decide),
   (nonzero_exit_plain_failure ⟨"bkt", "", none⟩ lsOkCpFailRunner "fig.png"
     "a.csv" "b.csv" "*" "no" "t1" "s" [] none none true true false false
     false wEmpty (by decide)
     (fun c hc => lsOkCpFailRunner_nonls c (by rw [hc]; decide))
     (fun c hc => lsOkCpFailRunner_nonls c (by rw [hc]; decide))).2.2.2.2.2.1⟩

/-- Counterexample to C4 as stated.  Saving the raw string `"hello"` — a
payload that is not an existing local file — under the unrecognized
extension `.xyz` does NOT fail with `UnsupportedFormatError` and does NOT
skip the transfer: the generic handler stages the payload into a temporary
file, invokes the external copy command, and reports its success. -/
theorem unsupported_format_counterexample :
    (save_data_to_bucket ⟨"bkt", "", none⟩ okRunner (.rawStr "hello")
      "file.xyz" none none true true "tmp1" wEmpty).1 = .ok true ∧
    Event.cmd ["gcloud", "storage", "cp", "tmp1", "gs://bkt/file.xyz"] 0
      ∈ (save_data_to_bucket ⟨"bkt", "", none⟩ okRunner (.rawStr "hello")
          "file.xyz" none none true true "tmp1" wEmpty).2.events ∧
    (save_data_to_bucket ⟨"bkt", "", none⟩ okRunner (.rawStr "hello")
      "file.xyz" none none true true "tmp1" wEmpty).1
      ≠ .exn .unsupportedFormatError := by decide

/-- C4 amended.  Under an extension that neither the tabular codecs nor
the plot handler recognize, the outcome depends on the payload type and
never on an `UnsupportedFormatError` (no such error exists): a DataFrame
payload is rejected with plain `False` and no copy command beyond the
validation listing; a plot payload is likewise rejected with `False` and
no transfer — before `savefig` is even attempted; a raw string/bytes
payload is staged through a temporary file and transferred regardless of
the extension; a dict payload is serialized as an `.xlsx` workbook and
transferred whatever the original extension; and any other payload has
`filename` itself handed to the external copy command. -/
theorem unrecognized_ext_amended (self : Session) (runner : Runner)
    (df : Nat) (s fn tmp : String) (ss : List (String × Nat))
    (b d : Option String) (idx exOk po : Bool) (w : World)
    (hv : (runner ["gcloud", "storage", "ls",
        "gs://" ++ bucketOf (construct_gcs_path self fn b d)]).1 = 0)
    (hext : tabularExts.contains (pyLower (pathSuffix fn)) = false)
    (hpl : plot_extensions.contains (pyLower (pathSuffix fn)) = false) :
    save_data_to_bucket self runner (.dataframe df) fn b d idx exOk tmp w
      = (.ok false,
         { w with events := w.events ++
            [Event.cmd ["gcloud", "storage", "ls",
              "gs://" ++ bucketOf (construct_gcs_path self fn b d)]
              (runner ["gcloud", "storage", "ls",
                "gs://" ++ bucketOf (construct_gcs_path self fn b d)]).1] }) ∧
    save_data_to_bucket self runner (.plot po) fn b d idx exOk tmp w
      = (.ok false,
         { w with events := w.events ++
            [Event.cmd ["gcloud", "storage", "ls",
              "gs://" ++ bucketOf (construct_gcs_path self fn b d)]
              (runner ["gcloud", "storage", "ls",
                "gs://" ++ bucketOf (construct_gcs_path self fn b d)]).1] }) ∧
    (save_data_to_bucket self runner (.rawStr s) fn b d idx exOk tmp w).1
      = .ok ((runner ["gcloud", "storage", "cp", tmp,
          construct_gcs_path self fn b d]).1 == 0) ∧
    Event.cmd ["gcloud", "storage", "cp", tmp, construct_gcs_path self fn b d]
        (runner ["gcloud", "storage", "cp", tmp,
          construct_gcs_path self fn b d]).1
      ∈ (save_data_to_bucket self runner (.rawStr s) fn b d idx exOk
          tmp w).2.events ∧
    (save_data_to_bucket self runner (.sheets ss) fn b d idx true tmp w).1
      = .ok ((runner ["gcloud", "storage", "cp", tmp,
          xlsxDest (construct_gcs_path self fn b d)]).1 == 0) ∧
    (save_data_to_bucket self runner .other fn b d idx exOk tmp w).1
      = .ok ((runner ["gcloud", "storage", "cp", fn,
          construct_gcs_path self fn b d]).1 == 0) := by
  have hj : pyLower (pathSuffix fn) ≠ ".json" := by
    intro he
    rw [he] at hext
    exact absurd hext (by decide)
  have hext2 : ¬(pyLower (pathSuffix fn) ∈ tabularExts) := by
    simpa using hext
  have hpl2 : ¬(pyLower (pathSuffix fn) ∈ plot_extensions) := by
    simpa using hpl
  refine ⟨?_, ?_, ?_, ?_, ?_, ?_⟩
  · simp [save_data_to_bucket, validate_bucket_access, World.run,
      save_dataframe, hv, hext2, hj]
  · simp [save_data_to_bucket, validate_bucket_access, World.run,
      save_plot, hv, hpl, hpl2]
  · simp [save_data_to_bucket, validate_bucket_access, World.run, save_file,
      World.mkTmp, World.unlinkTmp, hv]
  · simp [save_data_to_bucket, validate_bucket_access, World.run, save_file,
      World.mkTmp, World.unlinkTmp, hv]
  · have hgs : pyStartsWith (xlsxDest (construct_gcs_path self fn b d))
        "gs://" = true := by
      unfold xlsxDest
      split
      · exact construct_startsWith self fn b d
      · exact pyStartsWith_append _ _ _ (construct_startsWith self fn b d)
    have hdyn := constructPathDyn_passthrough self
      (xlsxDest (construct_gcs_path self fn b d)) (PyArg.pbool idx)
      PyArg.pnone hgs
    simp only [xlsxDest] at hdyn
    simp only [save_data_to_bucket, save_excel_workbook,
      validate_bucket_access, World.run, xlsxDest]
    rw [hdyn]
    simp [hv, World.mkTmp, World.unlinkTmp, World.run]
  · simp [save_data_to_bucket, validate_bucket_access, World.run, save_file, hv]

/-- Witness for C4 amended: under `.xyz`, a plot payload is rejected
without a copy while a raw string is transferred. -/
theorem unrecognized_ext_amended_witness :
    (okRunner ["gcloud", "storage", "ls", "gs://bkt"]).1 = 0 ∧
    tabularExts.contains (pyLower (pathSuffix "file.xyz")) = false ∧
    plot_extensions.contains (pyLower (pathSuffix "file.xyz")) = false ∧
    (save_data_to_bucket ⟨"bkt", "", none⟩ okRunner (.plot true) "file.xyz"
      none none true true "tmp1" wEmpty).1 = .ok false ∧
    (save_data_to_bucket ⟨"bkt", "", none⟩ okRunner (.rawStr "hello")
      "file.xyz" none none true true "tmp1" wEmpty).1 = .ok true :=
  ⟨by decide, by decide, by decide,
   by
    have h := (unrecognized_ext_amended ⟨"bkt", "", none⟩ okRunner 0 "hello"
      "file.xyz" "tmp1" [] none none true true true wEmpty (by decide)
      (by decide) (by decide)).2.1
    rw [h],
   by
    have h := (unrecognized_ext_amended ⟨"bkt", "", none⟩ okRunner 0 "hello"
      "file.xyz" "tmp1" [] none none true true true wEmpty (by decide)
      (by decide) (by decide)).2.2.1
    simpa using h⟩

/-- Counterexample to C5 as stated.  A plot whose `savefig` raises leaves
its staged temporary file on disk (the exception is caught upstream and the
call returns `False`, but `os.unlink` was never reached); likewise a
workbook save whose `to_excel` writer raises keeps its temporary file. -/
theorem temp_cleanup_counterexample :
    "tmpP" ∈ (save_data_to_bucket ⟨"bkt", "", none⟩ okRunner (.plot false)
      "fig.png" none none true true "tmpP" wEmpty).2.tmp ∧
    (save_data_to_bucket ⟨"bkt", "", none⟩ okRunner (.plot false) "fig.png"
      none none true true "tmpP" wEmpty).1 = .ok false ∧
    "tmpX" ∈ (save_data_to_bucket ⟨"bkt", "", none⟩ okRunner
      (.sheets [("a", 1)]) "wb.xlsx" none none true false "tmpX"
      wEmpty).2.tmp ∧
    (save_data_to_bucket ⟨"bkt", "", none⟩ okRunner (.sheets [("a", 1)])
      "wb.xlsx" none none true false "tmpX" wEmpty).1 = .ok false := by decide

/-- C5 amended.  The staging temporary file is deleted on the success path
and on the failed-external-copy path of every staging save handler (plot,
workbook, raw string/bytes) — whatever the copy's exit status, the file is
unlinked before the result is computed — but an exception raised during
serialization (`savefig` for plots, the `to_excel` writer loop for
workbooks) happens before the unlink and leaves the temporary file on
disk. -/
theorem temp_cleanup_amended (self : Session) (runner : Runner)
    (sheets : List (String × Nat)) (fn gcs fext tmp s : String)
    (bs ds : Option String) (idx : Bool) (w : World)
    (h : tmp ∉ w.tmp) :
    tmp ∉ (save_plot runner true gcs fext tmp w).2.tmp ∧
    tmp ∉ (save_file runner (.rawStr s) gcs fn tmp w).2.tmp ∧
    tmp ∉ (save_excel_workbook self sheets fn (optToArg bs) (optToArg ds)
      idx true runner tmp w).2.tmp ∧
    (plot_extensions.contains fext = true →
      tmp ∈ (save_plot runner false gcs fext tmp w).2.tmp) ∧
    tmp ∈ (save_excel_workbook self sheets fn (optToArg bs) (optToArg ds)
      idx false runner tmp w).2.tmp := by
  have herase : (w.tmp ++ [tmp]).erase tmp = w.tmp :=
    erase_append_singleton w.tmp tmp h
  refine ⟨?_, ?_, ?_, ?_, ?_⟩
  · by_cases hm : fext ∈ plot_extensions
    · simp [save_plot, World.mkTmp, World.unlinkTmp, World.run, hm, herase, h]
    · simp [save_plot, hm, h]
  · simp [save_file, World.mkTmp, World.unlinkTmp, World.run, herase, h]
  · rw [save_excel_workbook, constructPathDyn_str]
    simp [World.mkTmp, World.unlinkTmp, World.run, herase, h]
  · intro hp
    have hm : fext ∈ plot_extensions := by simpa using hp
    simp [save_plot, World.mkTmp, hm]
  · rw [save_excel_workbook, constructPathDyn_str]
    simp [World.mkTmp]

/-- Witness for C5 amended: with a fresh temp name, a successful plot save
cleans up while a failing `savefig` orphans the file. -/
theorem temp_cleanup_amended_witness :
    "t1" ∉ wEmpty.tmp ∧
    "t1" ∉ (save_plot okRunner true "gs://b/f.png" ".png" "t1"
      wEmpty).2.tmp ∧
    "t1" ∈ (save_plot okRunner false "gs://b/f.png" ".png" "t1"
      wEmpty).2.tmp :=
  ⟨by decide,
   (temp_cleanup_amended ⟨"bkt", "", none⟩ okRunner [] "f" "gs://b/f.png"
     ".png" "t1" "s" none none true wEmpty (by decide)).1,
   (temp_cleanup_amended ⟨"bkt", "", none⟩ okRunner [] "f" "gs://b/f.png"
     ".png" "t1" "s" none none true wEmpty (by decide)).2.2.2.1 (by decide)⟩

/-- Counterexample to C6 as stated.  A tabular read with `local_only` set
returns `None`, not a local path descriptor; an image read with
`local_only` set ignores the flag entirely — it constructs the `Image`
object (deserializes), displays it, deletes the downloaded local file and
returns the `Image`, leaving no local file at all. -/
theorem local_only_counterexample :
    (read_data_from_bucket ⟨"bkt", "", none⟩ okRunner "d.csv" none none
      false true wEmpty).1 = .ok .pyNone ∧
    (read_data_from_bucket ⟨"bkt", "", none⟩ okRunner "p.png" none none
      false true wEmpty).1 = .ok (.image "p.png") ∧
    Event.display "p.png" ∈ (read_data_from_bucket ⟨"bkt", "", none⟩
      okRunner "p.png" none none false true wEmpty).2.events ∧
    (read_data_from_bucket ⟨"bkt", "", none⟩ okRunner "p.png" none none
      false true wEmpty).2.locals = [] := by decide

/-- C6 amended.  `local_only` is honoured asymmetrically by format class:
a tabular read only downloads and returns `None` (not a path descriptor);
an image read ignores the flag completely (the call is identical with and
without it, deserializing and displaying as usual); only the generic read
behaves as claimed, returning the downloaded file's local name. -/
theorem local_only_amended (self : Session) (runner : Runner) (fn : String)
    (bs ds : Option String) (scl : Bool) (w : World)
    (hv : (runner ["gcloud", "storage", "ls",
        "gs://" ++ bucketOf (construct_gcs_path self fn bs ds)]).1 = 0) :
    (pyLower (pathSuffix fn) ∈ tabularExts →
      (read_data_from_bucket self runner fn bs ds scl true w).1
        = .ok .pyNone) ∧
    (pyLower (pathSuffix fn) ∈ imageReadExts →
      read_data_from_bucket self runner fn bs ds scl true w
        = read_data_from_bucket self runner fn bs ds scl false w) ∧
    (pyLower (pathSuffix fn) ∉ tabularExts →
      pyLower (pathSuffix fn) ∉ imageReadExts →
      (runner ["gcloud", "storage", "cp",
        construct_gcs_path self fn bs ds, pathName fn]).1 = 0 →
      (read_data_from_bucket self runner fn bs ds scl true w).1
        = .ok (.localPath (pathName fn))) := by
  refine ⟨?_, ?_, ?_⟩
  · intro ht
    simp [read_data_from_bucket, validate_bucket_access, World.run, hv, ht,
      read_dataframe, World.addLocal]
  · intro hi
    have ht : pyLower (pathSuffix fn) ∉ tabularExts := by
      have hi2 := hi
      simp only [imageReadExts, List.mem_cons, List.not_mem_nil,
        or_false] at hi2
      rcases hi2 with hh | hh | hh | hh | hh <;> rw [hh] <;> decide
    simp [read_data_from_bucket, validate_bucket_access, World.run, hv, ht, hi]
  · intro ht hi hcp
    simp [read_data_from_bucket, validate_bucket_access, World.run, hv, ht,
      hi, read_generic_file, World.addLocal, hcp]

/-- Witness for C6 amended on a tabular filename. -/
theorem local_only_amended_witness :
    (okRunner ["gcloud", "storage", "ls", "gs://bkt"]).1 = 0 ∧
    pyLower (pathSuffix "d.csv") ∈ tabularExts ∧
    (read_data_from_bucket ⟨"bkt", "", none⟩ okRunner "d.csv" none none
      false true wEmpty).1 = .ok .pyNone :=
  ⟨by decide, by decide,
   (local_only_amended ⟨"bkt", "", none⟩ okRunner "d.csv" none none false
     wEmpty (by decide)).1 (by decide)⟩

/-- C9.  A dict-of-DataFrames save always serializes every sheet with
`index=True`, whatever `index` the caller passed: the full trace below
shows the caller's `idx` appearing nowhere — it is consumed positionally as
the helper's `bucket_name` parameter, which the resolver then ignores
because the path handed over as `filename` already starts with `gs://`,
while the helper's own `index` parameter keeps its default `True` in every
recorded sheet write. -/
theorem workbook_index_always_true (self : Session) (runner : Runner)
    (sheets : List (String × Nat)) (fn tmp : String) (bs ds : Option String)
    (idx : Bool) (w : World)
    (hv : (runner ["gcloud", "storage", "ls",
        "gs://" ++ bucketOf (construct_gcs_path self fn bs ds)]).1 = 0) :
    save_data_to_bucket self runner (.sheets sheets) fn bs ds idx true tmp w
      = (.ok ((runner ["gcloud", "storage", "cp", tmp,
            xlsxDest (construct_gcs_path self fn bs ds)]).1 == 0),
         { tmp := (w.tmp ++ [tmp]).erase tmp,
           locals := w.locals,
           events := w.events
             ++ [Event.cmd ["gcloud", "storage", "ls",
                   "gs://" ++ bucketOf (construct_gcs_path self fn bs ds)]
                   (runner ["gcloud", "storage", "ls",
                     "gs://" ++ bucketOf (construct_gcs_path self fn bs ds)]).1,
                 Event.tmpCreate tmp]
             ++ sheets.map (fun p => Event.sheetWrite p.1 p.2 true)
             ++ [Event.cmd ["gcloud", "storage", "cp", tmp,
                   xlsxDest (construct_gcs_path self fn bs ds)]
                   (runner ["gcloud", "storage", "cp", tmp,
                     xlsxDest (construct_gcs_path self fn bs ds)]).1,
                 Event.tmpDelete tmp] }) := by
  have hgs : pyStartsWith (xlsxDest (construct_gcs_path self fn bs ds))
      "gs://" = true := by
    unfold xlsxDest
    split
    · exact construct_startsWith self fn bs ds
    · exact pyStartsWith_append _ _ _ (construct_startsWith self fn bs ds)
  have hdyn := constructPathDyn_passthrough self
    (xlsxDest (construct_gcs_path self fn bs ds)) (PyArg.pbool idx)
    PyArg.pnone hgs
  simp only [xlsxDest] at hdyn
  simp only [save_data_to_bucket, save_excel_workbook, validate_bucket_access,
    World.run, xlsxDest]
  rw [hdyn]
  simp [hv, World.mkTmp, World.unlinkTmp, World.run, List.append_assoc]

/-- Witness for C9: with `index=False` requested by the caller, the
recorded sheet write still carries `index=True`. -/
theorem workbook_index_always_true_witness :
    Event.sheetWrite "a" 1 true
      ∈ (save_data_to_bucket ⟨"bkt", "", none⟩ okRunner (.sheets [("a", 1)])
          "wb.xlsx" none none false true "t9" wEmpty).2.events := by
  rw [workbook_index_always_true ⟨"bkt", "", none⟩ okRunner [("a", 1)]
    "wb.xlsx" "t9" none none false wEmpty (by decide)]
  decide

/-- C10.  Save and read classify `.eps` and `.tiff` asymmetrically: the
save side lists them among the plot extensions, so a plot payload is staged
via `savefig` and transferred; the read side's image set omits them, so the
read is routed to the generic handler and can only produce `None`, a local
path, or raw bytes — never an image object. -/
theorem eps_tiff_asymmetry (self : Session) (runner : Runner)
    (fn tmp : String) (bs ds : Option String) (scl lo idx exOk : Bool)
    (w : World)
    (h : pyLower (pathSuffix fn) = ".eps" ∨
      pyLower (pathSuffix fn) = ".tiff") :
    pyLower (pathSuffix fn) ∈ plot_extensions ∧
    ((runner ["gcloud", "storage", "ls",
        "gs://" ++ bucketOf (construct_gcs_path self fn bs ds)]).1 = 0 →
      save_data_to_bucket self runner (.plot true) fn bs ds idx exOk tmp w
        = (.ok ((runner ["gcloud", "storage", "cp", tmp,
              construct_gcs_path self fn bs ds]).1 == 0),
           { tmp := (w.tmp ++ [tmp]).erase tmp,
             locals := w.locals,
             events := w.events
               ++ [Event.cmd ["gcloud", "storage", "ls",
                     "gs://" ++ bucketOf (construct_gcs_path self fn bs ds)]
                     (runner ["gcloud", "storage", "ls",
                       "gs://" ++ bucketOf (construct_gcs_path self fn bs ds)]).1,
                   Event.tmpCreate tmp,
                   Event.cmd ["gcloud", "storage", "cp", tmp,
                     construct_gcs_path self fn bs ds]
                     (runner ["gcloud", "storage", "cp", tmp,
                       construct_gcs_path self fn bs ds]).1,
                   Event.tmpDelete tmp] })) ∧
    (∀ r, (read_data_from_bucket self runner fn bs ds scl lo w).1 = .ok r →
      r = .pyNone ∨ (∃ p, r = .localPath p) ∨ (∃ p, r = .bytesOf p)) := by
  have hplot : pyLower (pathSuffix fn) ∈ plot_extensions := by
    rcases h with hh | hh <;> rw [hh] <;> decide
  have htabB : tabularExts.contains (pyLower (pathSuffix fn)) = false := by
    rcases h with hh | hh <;> rw [hh] <;> decide
  have himgB : imageReadExts.contains (pyLower (pathSuffix fn)) = false := by
    rcases h with hh | hh <;> rw [hh] <;> decide
  refine ⟨hplot, ?_, ?_⟩
  · intro hv
    simp [save_data_to_bucket, validate_bucket_access, World.run, save_plot,
      World.mkTmp, World.unlinkTmp, hv, hplot, List.append_assoc]
  · intro r hr
    simp only [read_data_from_bucket, validate_bucket_access, World.run,
      htabB, himgB, Bool.false_eq_true, if_false, read_generic_file,
      World.addLocal, World.removeLocal] at hr
    split at hr <;> (try split at hr) <;> (try split at hr) <;>
      (try split at hr) <;> simp at hr <;>
      first
        | exact Or.inl hr
        | exact Or.inl hr.symm
        | exact Or.inr (Or.inl ⟨pathName fn, hr⟩)
        | exact Or.inr (Or.inl ⟨pathName fn, hr.symm⟩)
        | exact Or.inr (Or.inr ⟨pathName fn, hr⟩)
        | exact Or.inr (Or.inr ⟨pathName fn, hr.symm⟩)

/-- Witness for C10 at `x.eps`: the read produces a local path, which the
disjunction classifies as non-image. -/
theorem eps_tiff_asymmetry_witness :
    (pyLower (pathSuffix "x.eps") = ".eps" ∨
      pyLower (pathSuffix "x.eps") = ".tiff") ∧
    (ReadResult.localPath "x.eps" = .pyNone ∨
      (∃ p, ReadResult.localPath "x.eps" = .localPath p) ∨
      (∃ p, ReadResult.localPath "x.eps" = .bytesOf p)) :=
  ⟨Or.inl (by decide),
   (eps_tiff_asymmetry ⟨"bkt", "", none⟩ okRunner "x.eps" "t" none none
     false true true true wEmpty (Or.inl (by decide))).2.2
     (ReadResult.localPath "x.eps") (by decide)⟩
